import Mathlib

/-!
Shallow embedding of `src/neural_networks.py`: a two-layer MLP trained by
gradient descent on a synthetic circle dataset.  numpy arrays are modelled as
Mathlib matrices over `ℝ`; the numpy global random state is modelled as an
explicit state value threaded through the seeded samplers.
-/

noncomputable section

/-- `sigmoid(x) = 1 / (1 + np.exp(-x))` (line 25-26). -/
def sigmoid (x : ℝ) : ℝ := 1 / (1 + Real.exp (-x))

/-- `tanh(x) = np.tanh(x)` (line 13-14). -/
def tanh (x : ℝ) : ℝ := Real.tanh x

/-- `tanh_derivative(x) = 1 - np.tanh(x)**2` (line 16-17). -/
def tanh_derivative (x : ℝ) : ℝ := 1 - Real.tanh x ^ 2

/-- `relu(x) = np.maximum(0, x)` (line 19-20). -/
def relu (x : ℝ) : ℝ := max 0 x

/-- `relu_derivative(x) = (x > 0).astype(float)` (line 22-23). -/
def relu_derivative (x : ℝ) : ℝ := if 0 < x then 1 else 0

/-- `sigmoid_derivative(x) = s * (1 - s)` with `s = sigmoid(x)` (line 28-30). -/
def sigmoid_derivative (x : ℝ) : ℝ := sigmoid x * (1 - sigmoid x)

/-- Modelled from the spec: numpy's process-wide pseudo-random state.  The
source relies on `np.random.seed` / `np.random.randn`, which live outside the
repository; the spec (§4.2, §8) only requires that the stream be a
deterministic function of the seed.  We record the current seed and the number
of draws made since seeding. -/
structure NPRandom where
  seed : ℕ
  pos : ℕ

/-- Modelled from the spec: the value of the `pos`-th standard-normal draw of
the numpy stream seeded with `seed`.  The spec fixes no particular values,
only that they are a deterministic function of `(seed, pos)`; this concrete
stand-in keeps the model executable. -/
def gaussVal (seed pos : ℕ) : ℝ :=
  (((seed * 40503 + pos * 69069 + 12345) % 1009 : ℕ) : ℝ) / 1009 - 1 / 2

/-- Modelled from the spec: `np.random.seed(s)` resets the global stream. -/
def npSeed (s : ℕ) (_g : NPRandom) : NPRandom := ⟨s, 0⟩

/-- Modelled from the spec: `np.random.randn(rows, cols)` draws a matrix of
standard-normal samples in row-major order and advances the stream. -/
def np_randn (rows cols : ℕ) (g : NPRandom) :
    Matrix (Fin rows) (Fin cols) ℝ × NPRandom :=
  (Matrix.of fun i j => gaussVal g.seed (g.pos + i.val * cols + j.val),
   ⟨g.seed, g.pos + rows * cols⟩)

/-- Row-broadcast addition `M + b` of a `1 × n` bias row onto every row of an
`m × n` matrix, as numpy broadcasting does in `X @ W + b`. -/
def addRowBroadcast {m n : ℕ} (M : Matrix (Fin m) (Fin n) ℝ)
    (b : Matrix (Fin 1) (Fin n) ℝ) : Matrix (Fin m) (Fin n) ℝ :=
  Matrix.of fun i j => M i j + b 0 j

/-- Elementwise application of a scalar function to a matrix. -/
def matMap {m n : ℕ} (f : ℝ → ℝ) (M : Matrix (Fin m) (Fin n) ℝ) :
    Matrix (Fin m) (Fin n) ℝ :=
  Matrix.of fun i j => f (M i j)

/-- `np.sum(M, axis=0, keepdims=True)`: column sums as a `1 × n` row. -/
def colSum {m n : ℕ} (M : Matrix (Fin m) (Fin n) ℝ) : Matrix (Fin 1) (Fin n) ℝ :=
  Matrix.of fun _ j => ∑ a, M a j

/-- Elementwise division of a matrix by a natural number, as `M / m`. -/
def matDivNat {a b : ℕ} (M : Matrix (Fin a) (Fin b) ℝ) (m : ℕ) :
    Matrix (Fin a) (Fin b) ℝ :=
  Matrix.of fun i j => M i j / (m : ℝ)

/-- The four intermediates cached by `forward` (lines 54-57), for a batch of
`m` samples. -/
structure Cache (m h o : ℕ) where
  Z1 : Matrix (Fin m) (Fin h) ℝ
  A1 : Matrix (Fin m) (Fin h) ℝ
  Z2 : Matrix (Fin m) (Fin o) ℝ
  A2 : Matrix (Fin m) (Fin o) ℝ

/-- The gradient dictionary `self.gradients` once `backward` has filled its
four keys (lines 65-71). -/
structure Gradients (i h o : ℕ) where
  W1 : Matrix (Fin i) (Fin h) ℝ
  b1 : Matrix (Fin 1) (Fin h) ℝ
  W2 : Matrix (Fin h) (Fin o) ℝ
  b2 : Matrix (Fin 1) (Fin o) ℝ

/-- The state of an `MLP` instance (lines 33-50): parameters, learning rate,
the configured activation pair, and the mutable caches.  `cache` is `none`
until the first `forward` call (the attributes `Z1..A2` do not exist yet);
`gradients` is `none` while the dict is empty; `hidden_features` starts as
`None`. -/
structure MLP (input_dim hidden_dim output_dim : ℕ) where
  lr : ℝ
  W1 : Matrix (Fin input_dim) (Fin hidden_dim) ℝ
  b1 : Matrix (Fin 1) (Fin hidden_dim) ℝ
  W2 : Matrix (Fin hidden_dim) (Fin output_dim) ℝ
  b2 : Matrix (Fin 1) (Fin output_dim) ℝ
  activation_fn : ℝ → ℝ
  activation_derivative : ℝ → ℝ
  hidden_features : Option ((mb : ℕ) × Matrix (Fin mb) (Fin hidden_dim) ℝ)
  gradients : Option (Gradients input_dim hidden_dim output_dim)
  cache : Option ((mb : ℕ) × Cache mb hidden_dim output_dim)

/-- The dictionary `{'tanh': tanh, 'relu': relu, 'sigmoid': sigmoid}` looked
up at construction (line 45); a missing key is a lookup failure. -/
def activation_fn_table (name : String) : Option (ℝ → ℝ) :=
  if name = "tanh" then some tanh
  else if name = "relu" then some relu
  else if name = "sigmoid" then some sigmoid
  else none

/-- The derivative dictionary looked up at construction (line 46). -/
def activation_derivative_table (name : String) : Option (ℝ → ℝ) :=
  if name = "tanh" then some tanh_derivative
  else if name = "relu" then some relu_derivative
  else if name = "sigmoid" then some sigmoid_derivative
  else none

/-- `MLP.__init__` (lines 34-50): reseed the global stream with 0, draw the
two weight matrices scaled by 0.1, zero the biases, and resolve the activation
name through the two dictionaries; an unknown name is a lookup error
(`none`). -/
def MLP.init (input_dim hidden_dim output_dim : ℕ) (lr : ℝ) (activation : String)
    (g : NPRandom) : Option (MLP input_dim hidden_dim output_dim) × NPRandom :=
  let g0 := npSeed 0 g
  let r1 := np_randn input_dim hidden_dim g0
  let r2 := np_randn hidden_dim output_dim r1.2
  match activation_fn_table activation, activation_derivative_table activation with
  | some f, some fd =>
      (some { lr := lr
              W1 := Matrix.of fun i j => r1.1 i j * 0.1
              b1 := 0
              W2 := Matrix.of fun i j => r2.1 i j * 0.1
              b2 := 0
              activation_fn := f
              activation_derivative := fd
              hidden_features := none
              gradients := none
              cache := none }, r2.2)
  | _, _ => (none, r2.2)

/-- `MLP.forward` (lines 52-59): compute the two layers, cache the four
intermediates and the hidden features on the instance, and return `A2`.
The result is the updated instance paired with the returned matrix. -/
def MLP.forward {input_dim hidden_dim output_dim m : ℕ}
    (net : MLP input_dim hidden_dim output_dim)
    (X : Matrix (Fin m) (Fin input_dim) ℝ) :
    MLP input_dim hidden_dim output_dim × Matrix (Fin m) (Fin output_dim) ℝ :=
  let Z1 := addRowBroadcast (X * net.W1) net.b1
  let A1 := matMap net.activation_fn Z1
  let Z2 := addRowBroadcast (A1 * net.W2) net.b2
  let A2 := matMap sigmoid Z2
  ({ net with
      cache := some ⟨m, ⟨Z1, A1, Z2, A2⟩⟩
      hidden_features := some ⟨m, A1⟩ }, A2)

/-- `MLP.backward` (lines 61-77): read the cached intermediates (an attribute
error if `forward` has never run, modelled by `Except.error` carrying the
untouched instance), compute the four gradients by backpropagation, store
them in the gradient dict, and update the parameters in place.  A cached batch
size different from `X`'s is likewise a numpy shape error before any
mutation. -/
def MLP.backward {input_dim hidden_dim output_dim m : ℕ}
    (net : MLP input_dim hidden_dim output_dim)
    (X : Matrix (Fin m) (Fin input_dim) ℝ)
    (y : Matrix (Fin m) (Fin output_dim) ℝ) :
    Except (MLP input_dim hidden_dim output_dim)
      (MLP input_dim hidden_dim output_dim) :=
  match net.cache with
  | none => Except.error net
  | some c =>
    if hm : c.1 = m then
      let cc : Cache m hidden_dim output_dim := hm ▸ c.2
      let dZ2 := cc.A2 - y
      let gW2 := matDivNat (Matrix.transpose cc.A1 * dZ2) m
      let gb2 := matDivNat (colSum dZ2) m
      let dA1 := dZ2 * Matrix.transpose net.W2
      let dZ1 := Matrix.of fun a j =>
        dA1 a j * net.activation_derivative (cc.Z1 a j)
      let gW1 := matDivNat (Matrix.transpose X * dZ1) m
      let gb1 := matDivNat (colSum dZ1) m
      Except.ok { net with
        gradients := some ⟨gW1, gb1, gW2, gb2⟩
        W2 := net.W2 - net.lr • gW2
        b2 := net.b2 - net.lr • gb2
        W1 := net.W1 - net.lr • gW1
        b1 := net.b1 - net.lr • gb1 }
    else Except.error net

/-- `generate_data` (lines 79-84): reseed with 0, draw `n × 2` features, and
label each point by whether it lies outside the unit circle (`astype(int)`
makes the labels integer 0/1, reshaped to an `n × 1` column). -/
def generate_data (n_samples : ℕ) (g : NPRandom) :
    (Matrix (Fin n_samples) (Fin 2) ℝ × Matrix (Fin n_samples) (Fin 1) ℤ) ×
      NPRandom :=
  let g0 := npSeed 0 g
  let r := np_randn n_samples 2 g0
  let X := r.1
  let y : Matrix (Fin n_samples) (Fin 1) ℤ :=
    Matrix.of fun i _ => if X i 0 ^ 2 + X i 1 ^ 2 > 1 then 1 else 0
  ((X, y), r.2)

/-- Modelled from the spec: the mean squared-error loss of predictions
against labels (§8 "squared-error loss"); the source computes no loss
function, so the spec's words fix it: the squared errors averaged over the
batch. -/
def squaredErrorLoss {m o : ℕ} (pred y : Matrix (Fin m) (Fin o) ℝ) : ℝ :=
  (∑ a, ∑ j, (pred a j - y a j) ^ 2) / m

/-- A concrete 1-2-1 network state with zero parameters and the tanh
activation pair, used as a concrete instance in several checks below. -/
def demoNet : MLP 1 1 1 where
  lr := 1 / 100
  W1 := 0
  b1 := 0
  W2 := 0
  b2 := 0
  activation_fn := tanh
  activation_derivative := tanh_derivative
  hidden_features := none
  gradients := none
  cache := none

/-- A concrete batch of two identical (zero) sample points. -/
def demoX : Matrix (Fin 2) (Fin 1) ℝ := 0

/-- Concrete labels 0 and 1 for the two demo samples. -/
def demoY : Matrix (Fin 2) (Fin 1) ℝ := Matrix.of fun a _ => (a.val : ℝ)

end

section Lemmas

theorem sigmoid_pos (x : ℝ) : 0 < sigmoid x := by
  unfold sigmoid
  positivity

theorem sigmoid_lt_one (x : ℝ) : sigmoid x < 1 := by
  unfold sigmoid
  rw [div_lt_one (by positivity)]
  have := Real.exp_pos (-x)
  linarith

theorem sigmoid_zero : sigmoid 0 = 1 / 2 := by
  unfold sigmoid
  rw [neg_zero, Real.exp_zero]
  norm_num

theorem tanh_sq_le_one (x : ℝ) : Real.tanh x ^ 2 ≤ 1 := by
  rw [Real.tanh_eq_sinh_div_cosh, div_pow, div_le_one (by positivity)]
  nlinarith [Real.cosh_sq_sub_sinh_sq x]

end Lemmas

/-- C5: for every real x, tanh_derivative x = 1 - tanh(x)^2 and lies in
[0,1]; relu_derivative x is 1 for x > 0 and 0 for x ≤ 0; and
sigmoid_derivative x = sigmoid x * (1 - sigmoid x) and lies in (0, 1/4]. -/
theorem activation_derivative_formulas (x : ℝ) :
    (tanh_derivative x = 1 - tanh x ^ 2 ∧
      0 ≤ tanh_derivative x ∧ tanh_derivative x ≤ 1) ∧
    ((0 < x → relu_derivative x = 1) ∧ (x ≤ 0 → relu_derivative x = 0)) ∧
    (sigmoid_derivative x = sigmoid x * (1 - sigmoid x) ∧
      0 < sigmoid_derivative x ∧ sigmoid_derivative x ≤ 1 / 4) := by
  refine ⟨⟨rfl, ?_, ?_⟩, ⟨?_, ?_⟩, rfl, ?_, ?_⟩
  · have := tanh_sq_le_one x
    unfold tanh_derivative
    linarith
  · have := sq_nonneg (Real.tanh x)
    unfold tanh_derivative
    linarith
  · intro hx
    unfold relu_derivative
    rw [if_pos hx]
  · intro hx
    unfold relu_derivative
    rw [if_neg (not_lt.mpr hx)]
  · have h0 := sigmoid_pos x
    have h1 := sigmoid_lt_one x
    unfold sigmoid_derivative
    nlinarith
  · have := sq_nonneg (sigmoid x - 1 / 2)
    unfold sigmoid_derivative
    nlinarith

/-- Witness for C5: the implications evaluated at the concrete inputs 1, -2
and 0. -/
theorem activation_derivative_formulas_witness :
    relu_derivative 1 = 1 ∧ relu_derivative (-2) = 0 ∧
      0 < sigmoid_derivative 0 :=
  ⟨(activation_derivative_formulas 1).2.1.1 (by norm_num),
   (activation_derivative_formulas (-2)).2.1.2 (by norm_num),
   (activation_derivative_formulas 0).2.2.2.1⟩

/-- C4: generate_data n returns n 2-D feature rows X and n aligned integer
labels y (an n × 1 column), with y i = 1 exactly when the sum of squared
coordinates of row i exceeds 1, and y i = 0 otherwise. -/
theorem generate_data_labels (n : ℕ) (g : NPRandom) (i : Fin n) :
    ((generate_data n g).1.2 i 0 = 1 ↔
        (generate_data n g).1.1 i 0 ^ 2 + (generate_data n g).1.1 i 1 ^ 2 > 1) ∧
    ((generate_data n g).1.2 i 0 = 0 ↔
        ¬ (generate_data n g).1.1 i 0 ^ 2 + (generate_data n g).1.1 i 1 ^ 2 > 1) := by
  unfold generate_data
  dsimp only [Matrix.of_apply]
  split <;> simp_all

/-- C8: generate_data reseeds the global stream with the fixed seed, so two
calls with the same sample count return bit-identical (X, y) regardless of
the incoming random-stream state. -/
theorem generate_data_deterministic (n : ℕ) (g1 g2 : NPRandom) :
    (generate_data n g1).1 = (generate_data n g2).1 := rfl

/-- C9: forward mutates only the per-call cache fields; the four parameters,
the learning rate, the activation pair and the gradient dict of the returned
instance are those of the input instance. -/
theorem forward_preserves_parameters {i h o m : ℕ} (net : MLP i h o)
    (X : Matrix (Fin m) (Fin i) ℝ) :
    ((MLP.forward net X).1.W1 = net.W1 ∧ (MLP.forward net X).1.b1 = net.b1 ∧
      (MLP.forward net X).1.W2 = net.W2 ∧ (MLP.forward net X).1.b2 = net.b2) ∧
    (MLP.forward net X).1.lr = net.lr ∧
    (MLP.forward net X).1.activation_fn = net.activation_fn ∧
    (MLP.forward net X).1.activation_derivative = net.activation_derivative ∧
    (MLP.forward net X).1.gradients = net.gradients :=
  ⟨⟨rfl, rfl, rfl, rfl⟩, rfl, rfl, rfl, rfl⟩

/-- C6: every entry of the matrix returned by forward lies strictly between
0 and 1. -/
theorem forward_output_in_unit_interval {i h o m : ℕ} (net : MLP i h o)
    (X : Matrix (Fin m) (Fin i) ℝ) (a : Fin m) (j : Fin o) :
    0 < (MLP.forward net X).2 a j ∧ (MLP.forward net X).2 a j < 1 := by
  show 0 < sigmoid _ ∧ sigmoid _ < 1
  exact ⟨sigmoid_pos _, sigmoid_lt_one _⟩

/-- C7: constructing with an activation name outside {tanh, relu, sigmoid}
fails the dictionary lookup (no instance is produced), while each supported
name constructs successfully. -/
theorem init_activation_lookup (i h o : ℕ) (lr : ℝ) (g : NPRandom)
    (name : String) (h1 : name ≠ "tanh") (h2 : name ≠ "relu")
    (h3 : name ≠ "sigmoid") :
    (MLP.init i h o lr name g).1 = none ∧
    ((MLP.init i h o lr "tanh" g).1.isSome ∧
      (MLP.init i h o lr "relu" g).1.isSome ∧
      (MLP.init i h o lr "sigmoid" g).1.isSome) := by
  unfold MLP.init activation_fn_table activation_derivative_table
  simp [h1, h2, h3]

/-- Witness for C7: the unsupported name "gelu" fails at construction. -/
theorem init_activation_lookup_witness :
    (MLP.init 2 3 1 (1 / 10) "gelu" ⟨0, 0⟩).1 = none :=
  (init_activation_lookup 2 3 1 (1 / 10) ⟨0, 0⟩ "gelu" (by decide) (by decide)
    (by decide)).1

/-- C10: on a freshly constructed instance (forward never called) the cache
attributes do not exist, so backward fails the cache lookup before storing
any gradient or touching any parameter: it raises carrying the instance
exactly as it was (same parameters, same empty gradient dict). -/
theorem backward_before_forward_errors {i h o m : ℕ} (lr : ℝ) (s : String)
    (g : NPRandom) (net : MLP i h o)
    (hinit : (MLP.init i h o lr s g).1 = some net)
    (X : Matrix (Fin m) (Fin i) ℝ) (y : Matrix (Fin m) (Fin o) ℝ) :
    MLP.backward net X y = Except.error net := by
  have hc : net.cache = none := by
    unfold MLP.init at hinit
    dsimp only at hinit
    split at hinit
    · simp only [Option.some.injEq] at hinit
      subst hinit
      rfl
    · simp at hinit
  unfold MLP.backward
  rw [hc]

/-- Witness for C10: a concrete freshly constructed tanh network rejects a
backward call. -/
theorem backward_before_forward_errors_witness :
    ∃ net : MLP 2 3 1,
      (MLP.init 2 3 1 (1 / 10) "tanh" ⟨0, 0⟩).1 = some net ∧
      MLP.backward net (0 : Matrix (Fin 4) (Fin 2) ℝ) 0 = Except.error net :=
  ⟨_, rfl, backward_before_forward_errors (1 / 10) "tanh" ⟨0, 0⟩ _ rfl 0 0⟩

/-- C2: forward computes Z1 = X·W1 + b1 (bias broadcast over rows), A1 by
applying the configured activation elementwise to Z1, Z2 = A1·W2 + b2, A2 by
applying sigmoid elementwise to Z2; it caches the four intermediates on the
instance (overwriting any prior cache) and returns A2. -/
theorem forward_spec {i h o m : ℕ} (net : MLP i h o)
    (X : Matrix (Fin m) (Fin i) ℝ) :
    (MLP.forward net X).1.cache = some ⟨m,
      { Z1 := Matrix.of fun a j => (∑ k, X a k * net.W1 k j) + net.b1 0 j
        A1 := Matrix.of fun a j =>
          net.activation_fn ((∑ k, X a k * net.W1 k j) + net.b1 0 j)
        Z2 := Matrix.of fun a j =>
          (∑ k, net.activation_fn ((∑ q, X a q * net.W1 q k) + net.b1 0 k) *
            net.W2 k j) + net.b2 0 j
        A2 := Matrix.of fun a j => sigmoid
          ((∑ k, net.activation_fn ((∑ q, X a q * net.W1 q k) + net.b1 0 k) *
            net.W2 k j) + net.b2 0 j) }⟩ ∧
    (MLP.forward net X).2 = Matrix.of fun a j => sigmoid
      ((∑ k, net.activation_fn ((∑ q, X a q * net.W1 q k) + net.b1 0 k) *
        net.W2 k j) + net.b2 0 j) := by
  have hZ1 : addRowBroadcast (X * net.W1) net.b1 =
      Matrix.of fun a j => (∑ k, X a k * net.W1 k j) + net.b1 0 j := by
    funext a j
    simp [addRowBroadcast, Matrix.mul_apply]
  have hA1 : matMap net.activation_fn (addRowBroadcast (X * net.W1) net.b1) =
      Matrix.of fun a j =>
        net.activation_fn ((∑ k, X a k * net.W1 k j) + net.b1 0 j) := by
    funext a j
    simp [matMap, addRowBroadcast, Matrix.mul_apply]
  have hZ2 : addRowBroadcast
        (matMap net.activation_fn (addRowBroadcast (X * net.W1) net.b1) *
          net.W2) net.b2 =
      Matrix.of fun a j =>
        (∑ k, net.activation_fn ((∑ q, X a q * net.W1 q k) + net.b1 0 k) *
          net.W2 k j) + net.b2 0 j := by
    funext a j
    simp [addRowBroadcast, matMap, Matrix.mul_apply]
  have hA2 : matMap sigmoid (addRowBroadcast
        (matMap net.activation_fn (addRowBroadcast (X * net.W1) net.b1) *
          net.W2) net.b2) =
      Matrix.of fun a j => sigmoid
        ((∑ k, net.activation_fn ((∑ q, X a q * net.W1 q k) + net.b1 0 k) *
          net.W2 k j) + net.b2 0 j) := by
    funext a j
    simp [matMap, addRowBroadcast, Matrix.mul_apply]
  refine ⟨?_, ?_⟩
  · have hcode : (MLP.forward net X).1.cache = some ⟨m,
        (⟨addRowBroadcast (X * net.W1) net.b1,
          matMap net.activation_fn (addRowBroadcast (X * net.W1) net.b1),
          addRowBroadcast
            (matMap net.activation_fn (addRowBroadcast (X * net.W1) net.b1) *
              net.W2) net.b2,
          matMap sigmoid (addRowBroadcast
            (matMap net.activation_fn (addRowBroadcast (X * net.W1) net.b1) *
              net.W2) net.b2)⟩ : Cache m h o)⟩ := rfl
    rw [hcode, hA2, hZ2, hA1, hZ1]
  · have hret : (MLP.forward net X).2 = matMap sigmoid (addRowBroadcast
        (matMap net.activation_fn (addRowBroadcast (X * net.W1) net.b1) *
          net.W2) net.b2) := rfl
    rw [hret, hA2]

/-- Helper: backward applied to an instance whose cache holds a batch of the
same size reduces to the explicit gradient computation and in-place update of
lines 61-77. -/
theorem backward_reduce {i h o m : ℕ} (net : MLP i h o)
    (cc : Cache m h o) (hc : net.cache = some ⟨m, cc⟩)
    (X : Matrix (Fin m) (Fin i) ℝ) (y : Matrix (Fin m) (Fin o) ℝ) :
    MLP.backward net X y = Except.ok { net with
      gradients := some
        ⟨matDivNat (Matrix.transpose X * (Matrix.of fun a j =>
            ((cc.A2 - y) * Matrix.transpose net.W2) a j *
              net.activation_derivative (cc.Z1 a j))) m,
         matDivNat (colSum (Matrix.of fun a j =>
            ((cc.A2 - y) * Matrix.transpose net.W2) a j *
              net.activation_derivative (cc.Z1 a j))) m,
         matDivNat (Matrix.transpose cc.A1 * (cc.A2 - y)) m,
         matDivNat (colSum (cc.A2 - y)) m⟩
      W2 := net.W2 -
        net.lr • matDivNat (Matrix.transpose cc.A1 * (cc.A2 - y)) m
      b2 := net.b2 - net.lr • matDivNat (colSum (cc.A2 - y)) m
      W1 := net.W1 -
        net.lr • matDivNat (Matrix.transpose X * (Matrix.of fun a j =>
          ((cc.A2 - y) * Matrix.transpose net.W2) a j *
            net.activation_derivative (cc.Z1 a j))) m
      b1 := net.b1 -
        net.lr • matDivNat (colSum (Matrix.of fun a j =>
          ((cc.A2 - y) * Matrix.transpose net.W2) a j *
            net.activation_derivative (cc.Z1 a j))) m } := by
  unfold MLP.backward
  rw [hc]
  dsimp only
  rw [dif_pos rfl]

/-- C1: after a forward(X) call, backward(X, y) computes dZ2 = A2 - y,
grad W2 = A1^T·dZ2/m, grad b2 = column-sum(dZ2)/m, hidden delta
dZ1 = (dZ2·W2^T) ⊙ activation_derivative(Z1) at the cached pre-activation,
grad W1 = X^T·dZ1/m, grad b1 = column-sum(dZ1)/m, and updates each parameter
in place to parameter - lr·gradient, all gradients being taken at the
pre-update parameter values. -/
theorem backward_gradient_spec {i h o m : ℕ} (net : MLP i h o)
    (X : Matrix (Fin m) (Fin i) ℝ) (y : Matrix (Fin m) (Fin o) ℝ) :
    let Z1 : Matrix (Fin m) (Fin h) ℝ :=
      Matrix.of fun a p => (∑ k, X a k * net.W1 k p) + net.b1 0 p
    let dZ2 : Matrix (Fin m) (Fin o) ℝ :=
      Matrix.of fun a q => (MLP.forward net X).2 a q - y a q
    let dZ1 : Matrix (Fin m) (Fin h) ℝ :=
      Matrix.of fun a p => (∑ q, dZ2 a q * net.W2 p q) *
        net.activation_derivative (Z1 a p)
    ∃ net2, MLP.backward ((MLP.forward net X).1) X y = Except.ok net2 ∧
      ∃ gr : Gradients i h o, net2.gradients = some gr ∧
        (gr.W2 = Matrix.of fun p q =>
            (∑ a, net.activation_fn (Z1 a p) * dZ2 a q) / m) ∧
        (gr.b2 = Matrix.of fun _ q => (∑ a, dZ2 a q) / m) ∧
        (gr.W1 = Matrix.of fun p q => (∑ a, X a p * dZ1 a q) / m) ∧
        (gr.b1 = Matrix.of fun _ q => (∑ a, dZ1 a q) / m) ∧
        net2.W1 = net.W1 - net.lr • gr.W1 ∧
        net2.b1 = net.b1 - net.lr • gr.b1 ∧
        net2.W2 = net.W2 - net.lr • gr.W2 ∧
        net2.b2 = net.b2 - net.lr • gr.b2 := by
  intro Z1 dZ2 dZ1
  have hred := backward_reduce ((MLP.forward net X).1) _ rfl X y
  refine ⟨_, hred, _, rfl, ?_, ?_, ?_, ?_, rfl, rfl, rfl, rfl⟩
  · funext p q
    simp [Z1, dZ2, matDivNat, MLP.forward, matMap, addRowBroadcast,
      Matrix.mul_apply]
  · funext p q
    simp [dZ2, matDivNat, colSum, MLP.forward, matMap, addRowBroadcast,
      Matrix.mul_apply]
  · funext p q
    simp [Z1, dZ2, dZ1, matDivNat, MLP.forward, matMap, addRowBroadcast,
      Matrix.mul_apply]
  · funext p q
    simp [Z1, dZ2, dZ1, matDivNat, colSum, MLP.forward, matMap,
      addRowBroadcast, Matrix.mul_apply]

/-- Helper: the demo batch loss is unchanged by the backward step (every
gradient vanishes there, so the update is the identity). -/
theorem demo_loss_key :
    ∀ net2 : MLP 1 1 1,
      MLP.backward ((MLP.forward demoNet demoX).1) demoX demoY =
        Except.ok net2 →
      squaredErrorLoss (MLP.forward net2 demoX).2 demoY =
        squaredErrorLoss (MLP.forward demoNet demoX).2 demoY := by
  intro net2 hok
  rw [backward_reduce ((MLP.forward demoNet demoX).1) _ rfl demoX demoY] at hok
  injection hok with h2
  subst h2
  norm_num [squaredErrorLoss, MLP.forward, matMap, addRowBroadcast,
    matDivNat, colSum, demoNet, demoX, demoY, tanh, Matrix.mul_apply,
    Matrix.sub_apply, Matrix.transpose_apply, Matrix.smul_apply,
    Matrix.zero_apply, Matrix.of_apply, Fin.sum_univ_two, Fin.sum_univ_one,
    sigmoid_zero, Real.tanh_zero]

/-- C3 counterexample: a network state (zero weights and biases, tanh
activation, learning rate 0.01 — the claim's own example rate) and a batch of
two zero samples with labels 0 and 1, on which forward has just been called:
every gradient computed by backward is zero, so the backward call leaves the
squared-error loss on that batch exactly unchanged (both sides equal 1/4) —
it does not strictly decrease it. -/
theorem backward_loss_counterexample :
    ∃ net2 : MLP 1 1 1,
      MLP.backward ((MLP.forward demoNet demoX).1) demoX demoY =
        Except.ok net2 ∧
      demoNet.lr = 1 / 100 ∧
      squaredErrorLoss (MLP.forward net2 demoX).2 demoY =
        squaredErrorLoss (MLP.forward demoNet demoX).2 demoY ∧
      ¬ squaredErrorLoss (MLP.forward net2 demoX).2 demoY <
          squaredErrorLoss (MLP.forward demoNet demoX).2 demoY := by
  obtain ⟨net2, hok⟩ :
      ∃ n2, MLP.backward ((MLP.forward demoNet demoX).1) demoX demoY =
        Except.ok n2 :=
    ⟨_, backward_reduce ((MLP.forward demoNet demoX).1) _ rfl demoX demoY⟩
  have heq := demo_loss_key net2 hok
  exact ⟨net2, hok, rfl, heq, by rw [heq]; exact lt_irrefl _⟩

/-- C3 amended: one backward call on the batch forward was just called on
strictly decreases the squared-error loss only when it actually moves the
parameters; when the four computed gradients are all zero — which does occur,
whatever the learning rate — the parameters and hence the loss on that batch
are exactly unchanged, so strict decrease fails in general. -/
theorem backward_zero_gradients_loss_unchanged {i h o m : ℕ}
    (net net2 : MLP i h o) (X : Matrix (Fin m) (Fin i) ℝ)
    (y : Matrix (Fin m) (Fin o) ℝ) (gr : Gradients i h o)
    (hok : MLP.backward ((MLP.forward net X).1) X y = Except.ok net2)
    (hg : net2.gradients = some gr)
    (hW1 : gr.W1 = 0) (hb1 : gr.b1 = 0) (hW2 : gr.W2 = 0) (hb2 : gr.b2 = 0) :
    (net2.W1 = net.W1 ∧ net2.b1 = net.b1 ∧ net2.W2 = net.W2 ∧
      net2.b2 = net.b2) ∧
    squaredErrorLoss (MLP.forward net2 X).2 y =
      squaredErrorLoss (MLP.forward net X).2 y := by
  rw [backward_reduce ((MLP.forward net X).1) _ rfl X y] at hok
  injection hok with h2
  subst h2
  dsimp only at hg
  rw [Option.some.injEq] at hg
  subst hg
  dsimp only at hW1 hb1 hW2 hb2 ⊢
  rw [hW1, hb1, hW2, hb2, smul_zero, smul_zero, smul_zero, smul_zero,
    sub_zero, sub_zero, sub_zero, sub_zero]
  exact ⟨⟨rfl, rfl, rfl, rfl⟩, rfl⟩

/-- Witness for the amended C3: the demo state and batch, where the computed
gradients are all zero and the loss is indeed unchanged. -/
theorem backward_zero_gradients_loss_unchanged_witness :
    ∃ (net2 : MLP 1 1 1) (gr : Gradients 1 1 1),
      MLP.backward ((MLP.forward demoNet demoX).1) demoX demoY =
        Except.ok net2 ∧
      net2.gradients = some gr ∧ net2.W1 = demoNet.W1 ∧
      squaredErrorLoss (MLP.forward net2 demoX).2 demoY =
        squaredErrorLoss (MLP.forward demoNet demoX).2 demoY := by
  have main := backward_zero_gradients_loss_unchanged demoNet _ demoX demoY _
    (backward_reduce ((MLP.forward demoNet demoX).1) _ rfl demoX demoY) rfl
    (by funext p q
        norm_num [MLP.forward, matMap, addRowBroadcast, matDivNat, colSum,
          demoNet, demoX, demoY, tanh, Matrix.mul_apply, Matrix.sub_apply,
          Matrix.transpose_apply, Matrix.zero_apply, Matrix.of_apply,
          Fin.sum_univ_two, Fin.sum_univ_one, sigmoid_zero, Real.tanh_zero])
    (by funext p q
        norm_num [MLP.forward, matMap, addRowBroadcast, matDivNat, colSum,
          demoNet, demoX, demoY, tanh, Matrix.mul_apply, Matrix.sub_apply,
          Matrix.transpose_apply, Matrix.zero_apply, Matrix.of_apply,
          Fin.sum_univ_two, Fin.sum_univ_one, sigmoid_zero, Real.tanh_zero])
    (by funext p q
        norm_num [MLP.forward, matMap, addRowBroadcast, matDivNat, colSum,
          demoNet, demoX, demoY, tanh, Matrix.mul_apply, Matrix.sub_apply,
          Matrix.transpose_apply, Matrix.zero_apply, Matrix.of_apply,
          Fin.sum_univ_two, Fin.sum_univ_one, sigmoid_zero, Real.tanh_zero])
    (by funext p q
        norm_num [MLP.forward, matMap, addRowBroadcast, matDivNat, colSum,
          demoNet, demoX, demoY, tanh, Matrix.mul_apply, Matrix.sub_apply,
          Matrix.transpose_apply, Matrix.zero_apply, Matrix.of_apply,
          Fin.sum_univ_two, Fin.sum_univ_one, sigmoid_zero, Real.tanh_zero])
  exact ⟨_, _,
    backward_reduce ((MLP.forward demoNet demoX).1) _ rfl demoX demoY, rfl,
    main.1.1, main.2⟩
